import Mathlib

/-!
# Verification of the web-spec execution/analysis core

Shallow embedding, in Lean 4, of the execution/analysis pipeline of the
`shift/web-spec` repository:

* the result data model (`src/src/execution/result.rs`),
* the comparison engine (`src/src/execution/comparison.rs`),
* the batch executor (`src/src/execution/batch.rs`),
* the performance monitor / alert evaluator (`src/src/execution/alerts.rs`),
* the step pattern registry of the Gherkin runner example
  (`src/examples/gherkin_runner.rs`).

Conventions used throughout:

* Rust `u64`/`usize` counters and millisecond durations become `Nat`
  (no claim exercises values anywhere near overflow, and the source
  never relies on wrap-around).
* Rust `i32`/`i64` signed deltas become `Int` (the source casts
  `usize as i32`; all values relevant to the claims are tiny, so the
  truncating cast is never observable here).
* Rust `f64` arithmetic is modelled with exact rationals `ℚ`.  Every
  floating point expression the claims exercise is a quotient of small
  integers compared against the constants 5, 10, 50, 30000, 60000 —
  points far away from any representable-rounding boundary, so exact
  rational arithmetic and `f64` arithmetic give the same comparison
  results there.  Where the source can produce `inf`/`NaN` (division by
  a zero baseline duration or average), the embedding branches
  explicitly on the zero denominator and encodes the `f64` comparison
  semantics of `inf`/`NaN` (see `cpGtBound` / `cpAbsGtBound` for the
  step-level averages, and the `bs.duration_ms = 0` disjuncts of
  `scenarioPairRegressions` for the scenario-level percentage).
* Wall-clock quantities (`Instant::now`, `chrono` timestamps) are
  environmental inputs with no algorithmic content; timestamp strings
  are modelled as `""` and elapsed times as an explicit field where the
  source reads the clock.
* `format!` rendering of floats inside human-readable description
  strings is presentation-only and is modelled by plain string
  concatenation of the fixed parts (no claim inspects those strings).
-/

/-! ## Result model (`src/src/execution/result.rs`) -/

/-- `StepResult` of `result.rs` (fields `output` and `error` are carried
as optional strings; `ErrorInfo` is collapsed to its message, which no
claim inspects). -/
structure StepResult where
  text : String
  keyword : String
  status : String
  duration_ms : Nat
  output : Option String
  error : Option String
deriving Repr, DecidableEq

/-- `ScenarioResult` of `result.rs`. -/
structure ScenarioResult where
  name : String
  status : String
  duration_ms : Nat
  steps : List StepResult
deriving Repr, DecidableEq

/-- `FeatureInfo` of `result.rs`. -/
structure FeatureInfo where
  name : String
  file : Option String
  description : Option String
deriving Repr, DecidableEq

/-- `ExecutionSummary` of `result.rs`. -/
structure ExecutionSummary where
  total_scenarios : Nat
  passed_scenarios : Nat
  failed_scenarios : Nat
  skipped_scenarios : Nat
  total_steps : Nat
  passed_steps : Nat
  failed_steps : Nat
  skipped_steps : Nat
deriving Repr, DecidableEq

/-- `ExecutionResult` of `result.rs`. -/
structure ExecutionResult where
  status : String
  timestamp : String
  duration_ms : Nat
  feature : FeatureInfo
  scenarios : List ScenarioResult
  summary : ExecutionSummary
deriving Repr, DecidableEq

/-- `ExecutionSummary::new`: all eight counters start at zero. -/
def ExecutionSummary.new : ExecutionSummary :=
  { total_scenarios := 0, passed_scenarios := 0, failed_scenarios := 0
    skipped_scenarios := 0, total_steps := 0, passed_steps := 0
    failed_steps := 0, skipped_steps := 0 }

/-- Body of the `for step in &scenario.steps` loop inside
`ExecutionSummary::add_scenario_result`: bump `total_steps` and the
counter matching the step status (`_ => {}` leaves the others alone). -/
def ExecutionSummary.addStepCount (s : ExecutionSummary) (step : StepResult) :
    ExecutionSummary :=
  let s := { s with total_steps := s.total_steps + 1 }
  if step.status = "passed" then { s with passed_steps := s.passed_steps + 1 }
  else if step.status = "failed" then { s with failed_steps := s.failed_steps + 1 }
  else if step.status = "skipped" then { s with skipped_steps := s.skipped_steps + 1 }
  else s

/-- `ExecutionSummary::add_scenario_result`: bump `total_scenarios`,
bump the scenario counter matching the scenario status (any other
status falls through the `match` arm `_ => {}`), then fold every step
through the step-counting loop. -/
def ExecutionSummary.add_scenario_result (s : ExecutionSummary)
    (scenario : ScenarioResult) : ExecutionSummary :=
  let s := { s with total_scenarios := s.total_scenarios + 1 }
  let s :=
    if scenario.status = "passed" then
      { s with passed_scenarios := s.passed_scenarios + 1 }
    else if scenario.status = "failed" then
      { s with failed_scenarios := s.failed_scenarios + 1 }
    else if scenario.status = "skipped" then
      { s with skipped_scenarios := s.skipped_scenarios + 1 }
    else s
  scenario.steps.foldl ExecutionSummary.addStepCount s

/-- `ExecutionResult::add_scenario`: push the scenario onto the
`scenarios` vector; no other field is touched. -/
def ExecutionResult.add_scenario (r : ExecutionResult)
    (scenario : ScenarioResult) : ExecutionResult :=
  { r with scenarios := r.scenarios ++ [scenario] }

/-- `ExecutionResult::update_status`: failed if any failed steps in the
summary, else passed if any passed steps, else skipped. -/
def ExecutionResult.update_status (r : ExecutionResult) : ExecutionResult :=
  if r.summary.failed_steps > 0 then { r with status := "failed" }
  else if r.summary.passed_steps > 0 then { r with status := "passed" }
  else { r with status := "skipped" }

/-- `ScenarioResult::new`: named, `pending`, zero duration, no steps. -/
def ScenarioResult.new (name : String) : ScenarioResult :=
  { name := name, status := "pending", duration_ms := 0, steps := [] }

/-- `ScenarioResult::add_step`: push the step onto the `steps` vector. -/
def ScenarioResult.add_step (s : ScenarioResult) (step : StepResult) :
    ScenarioResult :=
  { s with steps := s.steps ++ [step] }

/-- `ScenarioResult::update_status`: `failed` if any step failed, else
`skipped` if all steps are skipped (`Iterator::all`, vacuously true on
an empty step list), else `passed` if any step passed, else the status
is left unchanged. -/
def ScenarioResult.update_status (s : ScenarioResult) : ScenarioResult :=
  if s.steps.any (fun st => st.status = "failed") then
    { s with status := "failed" }
  else if s.steps.all (fun st => st.status = "skipped") then
    { s with status := "skipped" }
  else if s.steps.any (fun st => st.status = "passed") then
    { s with status := "passed" }
  else s

/-- `StepResult::new`: `pending`, zero duration, no output, no error. -/
def StepResult.new (text keyword : String) : StepResult :=
  { text := text, keyword := keyword, status := "pending", duration_ms := 0
    output := none, error := none }

/-- `StepResult::with_status`. -/
def StepResult.with_status (s : StepResult) (status : String) : StepResult :=
  { s with status := status }

/-! ## Comparison engine (`src/src/execution/comparison.rs`) -/

/-- `ComparisonSummary` of `comparison.rs`. -/
structure ComparisonSummary where
  baseline_timestamp : String
  current_timestamp : String
  scenario_changes_count : Nat
  step_changes_count : Nat
  regression_count : Nat
  improvement_count : Nat
deriving Repr, DecidableEq

/-- `MetricsDifference` of `comparison.rs` (signed deltas as `Int`;
the source truncates through `as i32`/`as i64`, never observable at the
magnitudes any claim uses; the percentage is exact `ℚ`). -/
structure MetricsDifference where
  passed_scenarios_diff : Int
  failed_scenarios_diff : Int
  skipped_scenarios_diff : Int
  passed_steps_diff : Int
  failed_steps_diff : Int
  skipped_steps_diff : Int
  duration_diff_ms : Int
  duration_change_percent : ℚ
deriving Repr, DecidableEq

/-- `ScenarioChange` of `comparison.rs`. -/
structure ScenarioChange where
  scenario_name : String
  previous_status : String
  current_status : String
  previous_duration_ms : Nat
  current_duration_ms : Nat
  change_type : String
deriving Repr, DecidableEq

/-- `StepPerformanceChange` of `comparison.rs`.  `change_percent` is
`none` when the `f64` value of the source is non-finite (`inf`, arising
when the baseline average is zero and the current average is not), and
`some q` with the exact rational value otherwise. -/
structure StepPerformanceChange where
  step_text : String
  baseline_avg_ms : ℚ
  current_avg_ms : ℚ
  change_percent : Option ℚ
  is_regression : Bool
  occurrence_count : Nat
deriving Repr, DecidableEq

/-- `RegressionItem` of `comparison.rs`. -/
structure RegressionItem where
  description : String
  severity : String
  scenario_name : Option String
  step_text : Option String
  impact_value : ℚ
  impact_unit : String
deriving Repr, DecidableEq

/-- `ImprovementItem` of `comparison.rs`. -/
structure ImprovementItem where
  description : String
  scenario_name : Option String
  step_text : Option String
  improvement_value : ℚ
  improvement_unit : String
deriving Repr, DecidableEq

/-- `ComparisonResult` of `comparison.rs`. -/
structure ComparisonResult where
  status : String
  summary : ComparisonSummary
  metrics_diff : MetricsDifference
  scenario_changes : List ScenarioChange
  step_performance_changes : List StepPerformanceChange
  regressions : List RegressionItem
  improvements : List ImprovementItem
deriving Repr, DecidableEq

/-- `calculate_metrics_diff` of `comparison.rs`.  The percentage guard
`if baseline.duration_ms > 0` is taken verbatim from the source. -/
def calculate_metrics_diff (baseline current : ExecutionResult) :
    MetricsDifference :=
  { passed_scenarios_diff :=
      (current.summary.passed_scenarios : Int) - baseline.summary.passed_scenarios
    failed_scenarios_diff :=
      (current.summary.failed_scenarios : Int) - baseline.summary.failed_scenarios
    skipped_scenarios_diff :=
      (current.summary.skipped_scenarios : Int) - baseline.summary.skipped_scenarios
    passed_steps_diff :=
      (current.summary.passed_steps : Int) - baseline.summary.passed_steps
    failed_steps_diff :=
      (current.summary.failed_steps : Int) - baseline.summary.failed_steps
    skipped_steps_diff :=
      (current.summary.skipped_steps : Int) - baseline.summary.skipped_steps
    duration_diff_ms := (current.duration_ms : Int) - baseline.duration_ms
    duration_change_percent :=
      if baseline.duration_ms > 0 then
        (((current.duration_ms : ℚ) - baseline.duration_ms) / baseline.duration_ms) * 100
      else 0 }

/-- The distinct scenario names of one side.  The source collects the
scenarios into a name-keyed `HashMap` and then iterates over it; the
iteration order of a Rust `HashMap` is unspecified, so the embedding
fixes one canonical order for the keys.  Every claim about
`compare_results` concerns membership, counts, or emptiness of the
produced lists, none of which depend on this choice. -/
def scenarioNames (l : List ScenarioResult) : List String :=
  (l.map ScenarioResult.name).dedup

/-- Name lookup in the scenario `HashMap` of `compare_results`.  The
map is built by inserting every scenario keyed by its name, so on
duplicate names the last-inserted scenario wins; hence the lookup
returns the last scenario of the list carrying the name. -/
def scenarioLookup (l : List ScenarioResult) (n : String) :
    Option ScenarioResult :=
  l.reverse.find? (fun s => s.name = n)

/-- `compare_scenarios` of `comparison.rs`. -/
def compare_scenarios (baseline current : ScenarioResult) : ScenarioChange :=
  { scenario_name := baseline.name
    previous_status := baseline.status
    current_status := current.status
    previous_duration_ms := baseline.duration_ms
    current_duration_ms := current.duration_ms
    change_type :=
      if baseline.status ≠ current.status then "status_changed"
      else if current.duration_ms < baseline.duration_ms then "duration_improved"
      else if current.duration_ms > baseline.duration_ms then "duration_regressed"
      else "unchanged" }

/-- The regression items the scenario loop of `compare_results` pushes
for one matched baseline/current pair: the `passed → failed` critical
item, and — in the `else if current > baseline` arm — the duration item
when the percentage increase exceeds 10, with severity `high` above 50
and `medium` otherwise.  The source computes `regression_percent` on
`f64`; in this arm `regression_ms` is positive, so a zero baseline
duration gives `+inf`, which exceeds both bounds — the embedding
branches on `bs.duration_ms = 0` to encode exactly that (the exact
rational compare otherwise), as the step-level `cpGtBound` does.  The
source renders the percentage into the description with `format!`; the
embedding keeps only the fixed text. -/
def scenarioPairRegressions (n : String) (bs cs : ScenarioResult) :
    List RegressionItem :=
  (if bs.status = "passed" ∧ cs.status = "failed" then
    [{ description := "Scenario " ++ n ++ " changed from passed to failed"
       severity := "critical", scenario_name := some n, step_text := none
       impact_value := 1, impact_unit := "count" }]
  else []) ++
  (if cs.duration_ms < bs.duration_ms then []
  else if cs.duration_ms > bs.duration_ms then
    let regression_ms : ℚ := (cs.duration_ms : ℚ) - bs.duration_ms
    let regression_percent : ℚ := regression_ms / bs.duration_ms * 100
    if bs.duration_ms = 0 ∨ regression_percent > 10 then
      [{ description := "Scenario " ++ n ++ " duration regressed"
         severity :=
           if bs.duration_ms = 0 ∨ regression_percent > 50 then "high"
           else "medium"
         scenario_name := some n, step_text := none
         impact_value := regression_ms, impact_unit := "ms" }]
    else []
  else [])

/-- The improvement item the scenario loop of `compare_results` pushes
for one matched pair: any strict duration decrease is reported. -/
def scenarioPairImprovements (n : String) (bs cs : ScenarioResult) :
    List ImprovementItem :=
  if cs.duration_ms < bs.duration_ms then
    [{ description := "Scenario " ++ n ++ " duration improved"
       scenario_name := some n, step_text := none
       improvement_value := (bs.duration_ms : ℚ) - cs.duration_ms
       improvement_unit := "ms" }]
  else []

/-- All steps of a result, in scenario-then-step order (the traversal
order of the two collection loops in `analyze_step_performance`). -/
def allSteps (r : ExecutionResult) : List StepResult :=
  r.scenarios.flatMap ScenarioResult.steps

/-- The distinct step texts of a result — the keys of the step-time
`HashMap` of `analyze_step_performance` (canonical order chosen as for
`scenarioNames`). -/
def stepTexts (r : ExecutionResult) : List String :=
  ((allSteps r).map StepResult.text).dedup

/-- The recorded durations of all steps of `r` carrying text `t` — the
map value built by the collection loops of `analyze_step_performance`. -/
def stepTimes (r : ExecutionResult) (t : String) : List Nat :=
  ((allSteps r).filter (fun s => s.text = t)).map StepResult.duration_ms

/-- Mean of a duration group, `sum / len` on `f64` in the source,
exact on `ℚ` here (`0` on the empty list, which only arises for an
absent map key and is guarded before use). -/
def meanMs (times : List Nat) : ℚ :=
  (times.sum : ℚ) / times.length

/-- `change_percent > bound` with the `f64` semantics of the source,
for a positive `bound`: when the baseline average is zero the division
yields `inf` (comparison true) if the current average is nonzero, and
`NaN` (comparison false) if it is zero; otherwise the exact rational
value is compared. -/
def cpGtBound (ba ca bound : ℚ) : Bool :=
  if ba = 0 then ca ≠ 0 else (ca - ba) / ba * 100 > bound

/-- `change_percent.abs() > bound` with the `f64` semantics of the
source, for a positive `bound` (see `cpGtBound`; averages of `u64`
durations are never negative, so `inf` is the only infinite case). -/
def cpAbsGtBound (ba ca bound : ℚ) : Bool :=
  if ba = 0 then ca ≠ 0 else |(ca - ba) / ba * 100| > bound

/-- The `StepPerformanceChange` entry `analyze_step_performance`
records for step text `t` (`none` when the key is absent on the
current side or the change does not exceed the 5% recording gate). -/
def stepChangeFor (baseline current : ExecutionResult) (t : String) :
    Option StepPerformanceChange :=
  let bt := stepTimes baseline t
  let ct := stepTimes current t
  if ct.isEmpty then none
  else
    let ba := meanMs bt
    let ca := meanMs ct
    if cpAbsGtBound ba ca 5 then
      some { step_text := t, baseline_avg_ms := ba, current_avg_ms := ca
             change_percent := if ba = 0 then none else some ((ca - ba) / ba * 100)
             is_regression := decide (ca > ba), occurrence_count := ct.length }
    else none

/-- The step-level regression items `analyze_step_performance` pushes
for step text `t`: inside the 5% gate, a regression with the change
percentage above 10, severity `high` above 50 and `medium` otherwise. -/
def stepRegressionsFor (baseline current : ExecutionResult) (t : String) :
    List RegressionItem :=
  let bt := stepTimes baseline t
  let ct := stepTimes current t
  if ct.isEmpty then []
  else
    let ba := meanMs bt
    let ca := meanMs ct
    if cpAbsGtBound ba ca 5 ∧ ca > ba ∧ cpGtBound ba ca 10 then
      [{ description := "Step " ++ t ++ " duration regressed"
         severity := if cpGtBound ba ca 50 then "high" else "medium"
         scenario_name := none, step_text := some t
         impact_value := ca - ba, impact_unit := "ms" }]
    else []

/-- The step-level improvement items `analyze_step_performance`
pushes for step text `t`: inside the 5% gate, a non-regression whose
absolute change percentage exceeds 10. -/
def stepImprovementsFor (baseline current : ExecutionResult) (t : String) :
    List ImprovementItem :=
  let bt := stepTimes baseline t
  let ct := stepTimes current t
  if ct.isEmpty then []
  else
    let ba := meanMs bt
    let ca := meanMs ct
    if cpAbsGtBound ba ca 5 ∧ ¬(ca > ba) ∧ cpAbsGtBound ba ca 10 then
      [{ description := "Step " ++ t ++ " duration improved"
         scenario_name := none, step_text := some t
         improvement_value := ba - ca, improvement_unit := "ms" }]
    else []

/-- The regression items pushed by the scenario loop of
`compare_results`: for every baseline name matched on the current side,
the items of `scenarioPairRegressions` for the pair. -/
def scenarioRegressions (baseline current : ExecutionResult) :
    List RegressionItem :=
  (scenarioNames baseline.scenarios).flatMap (fun n =>
    match scenarioLookup baseline.scenarios n, scenarioLookup current.scenarios n with
    | some bs, some cs => scenarioPairRegressions n bs cs
    | _, _ => [])

/-- The improvement items pushed by the scenario loop of
`compare_results`. -/
def scenarioImprovements (baseline current : ExecutionResult) :
    List ImprovementItem :=
  (scenarioNames baseline.scenarios).flatMap (fun n =>
    match scenarioLookup baseline.scenarios n, scenarioLookup current.scenarios n with
    | some bs, some cs => scenarioPairImprovements n bs cs
    | _, _ => [])

/-- The `scenario_changes` vector of `compare_results`: one change per
baseline name (`compare_scenarios` when matched, a `removed` entry when
not), followed by one `new` entry per unmatched current name. -/
def scenarioChangesList (baseline current : ExecutionResult) :
    List ScenarioChange :=
  (scenarioNames baseline.scenarios).filterMap (fun n =>
    match scenarioLookup baseline.scenarios n, scenarioLookup current.scenarios n with
    | some bs, some cs => some (compare_scenarios bs cs)
    | some bs, none => some
        { scenario_name := n, previous_status := bs.status
          current_status := "removed", previous_duration_ms := bs.duration_ms
          current_duration_ms := 0, change_type := "removed" }
    | none, _ => none) ++
  (scenarioNames current.scenarios).filterMap (fun n =>
    match scenarioLookup baseline.scenarios n, scenarioLookup current.scenarios n with
    | none, some cs => some
        { scenario_name := n, previous_status := "new"
          current_status := cs.status, previous_duration_ms := 0
          current_duration_ms := cs.duration_ms, change_type := "new" }
    | _, _ => none)

/-- The `StepPerformanceChange` entries of `analyze_step_performance`,
one per baseline step text passing the gates. -/
def stepChangesList (baseline current : ExecutionResult) :
    List StepPerformanceChange :=
  (stepTexts baseline).filterMap (stepChangeFor baseline current)

/-- The regression items `analyze_step_performance` appends. -/
def stepRegressions (baseline current : ExecutionResult) :
    List RegressionItem :=
  (stepTexts baseline).flatMap (stepRegressionsFor baseline current)

/-- The improvement items `analyze_step_performance` appends. -/
def stepImprovements (baseline current : ExecutionResult) :
    List ImprovementItem :=
  (stepTexts baseline).flatMap (stepImprovementsFor baseline current)

/-- `compare_results` of `comparison.rs`: metrics diff, the scenario
loop over the baseline map (matched pairs feed `compare_scenarios` and
the regression/improvement extraction; unmatched baseline names become
`removed` changes), the `new`-scenario loop over the current map, the
step-performance analysis (whose items are appended after the
scenario-level ones, as the source pushes into the same vectors), and
the overall status with regression precedence. -/
def compare_results (baseline current : ExecutionResult) : ComparisonResult :=
  let regressions :=
    scenarioRegressions baseline current ++ stepRegressions baseline current
  let improvements :=
    scenarioImprovements baseline current ++ stepImprovements baseline current
  { status :=
      if !regressions.isEmpty then "regression"
      else if !improvements.isEmpty then "improvement"
      else "unchanged"
    summary :=
      { baseline_timestamp := baseline.timestamp
        current_timestamp := current.timestamp
        scenario_changes_count := (scenarioChangesList baseline current).length
        step_changes_count := (stepChangesList baseline current).length
        regression_count := regressions.length
        improvement_count := improvements.length }
    metrics_diff := calculate_metrics_diff baseline current
    scenario_changes := scenarioChangesList baseline current
    step_performance_changes := stepChangesList baseline current
    regressions := regressions
    improvements := improvements }

/-! ## Batch executor (`src/src/execution/batch.rs`) -/

/-- `FeatureResult` of `batch.rs`.  `PathBuf` values are modelled as
strings; the wall-clock `duration_ms` of `execute_feature` is an
environmental input and is fixed to `0` (no claim observes it). -/
structure FeatureResult where
  name : String
  path : String
  status : String
  scenarios_passed : Nat
  scenarios_failed : Nat
  duration_ms : Nat
  result : Option ExecutionResult
deriving Repr, DecidableEq

/-- `BatchError` of `batch.rs` (the `chrono` timestamp is modelled
as `""`). -/
structure BatchError where
  path : String
  error : String
  timestamp : String
deriving Repr, DecidableEq

/-- `BatchResult` of `batch.rs`. -/
structure BatchResult where
  total_features : Nat
  passed_features : Nat
  failed_features : Nat
  total_scenarios : Nat
  passed_scenarios : Nat
  failed_scenarios : Nat
  total_duration_ms : Nat
  results : List FeatureResult
  errors : List BatchError
deriving Repr, DecidableEq

/-- `BatchExecutor::execute_feature`: run the caller-supplied runner on
one path; on `Ok` take the status and the scenario counters from the
execution summary, on `Err` record a `failed` feature contributing zero
scenarios and carrying no result.  `file_stem` (a `std` path operation
outside this repository) is passed in as `stem`. -/
def execute_feature (stem : String → String)
    (runner : String → Except String ExecutionResult) (path : String) :
    FeatureResult :=
  match runner path with
  | .ok exec_result =>
      { name := stem path, path := path, status := exec_result.status
        scenarios_passed := exec_result.summary.passed_scenarios
        scenarios_failed := exec_result.summary.failed_scenarios
        duration_ms := 0, result := some exec_result }
  | .error _ =>
      { name := stem path, path := path, status := "failed"
        scenarios_passed := 0, scenarios_failed := 0
        duration_ms := 0, result := none }

/-- `BatchExecutor::execute`: map `execute_feature` over the paths
(rayon's indexed `par_iter().map().collect()` preserves the input
order, so the sequential and the parallel arm produce the same list),
then compute every aggregate by folding over the completed
`FeatureResult` records, and collect one `BatchError` per record whose
`result` is `None` (message fixed to `"Feature execution failed"`). -/
def BatchExecutor.execute (stem : String → String) (paths : List String)
    (runner : String → Except String ExecutionResult) : BatchResult :=
  let results := paths.map (execute_feature stem runner)
  { total_features := paths.length
    passed_features := (results.filter (fun r => r.status = "passed")).length
    failed_features := (results.filter (fun r => r.status = "failed")).length
    total_scenarios :=
      (results.map (fun r => r.scenarios_passed + r.scenarios_failed)).sum
    passed_scenarios := (results.map FeatureResult.scenarios_passed).sum
    failed_scenarios := (results.map FeatureResult.scenarios_failed).sum
    total_duration_ms := 0
    results := results
    errors := results.filterMap (fun r =>
      if r.result.isNone then
        some { path := r.path, error := "Feature execution failed", timestamp := "" }
      else none) }

/-! ## Performance monitor and alerts (`src/src/execution/alerts.rs`) -/

/-- `AlertMetric` of `alerts.rs`. -/
inductive AlertMetric where
  | scenarioDurationMs
  | stepDurationMs
  | failureRatePercent
  | totalDurationMs
  | scenariosPerSecond
  | stepsPerSecond
  | memoryUsageMb
  | custom (key : String)
deriving Repr, DecidableEq

/-- `format!("{:?}", metric)` for the metric field of an alert. -/
def AlertMetric.debugName : AlertMetric → String
  | .scenarioDurationMs => "ScenarioDurationMs"
  | .stepDurationMs => "StepDurationMs"
  | .failureRatePercent => "FailureRatePercent"
  | .totalDurationMs => "TotalDurationMs"
  | .scenariosPerSecond => "ScenariosPerSecond"
  | .stepsPerSecond => "StepsPerSecond"
  | .memoryUsageMb => "MemoryUsageMb"
  | .custom key => "Custom " ++ key

/-- `AlertOperator` of `alerts.rs`. -/
inductive AlertOperator where
  | greaterThan
  | lessThan
  | equalTo
  | notEqualTo
deriving Repr, DecidableEq

/-- `AlertSeverity` of `alerts.rs`. -/
inductive AlertSeverity where
  | info
  | warning
  | critical
deriving Repr, DecidableEq

/-- `AlertThreshold` of `alerts.rs` (`value : f64` as exact `ℚ`). -/
structure AlertThreshold where
  name : String
  metric : AlertMetric
  operator : AlertOperator
  value : ℚ
  severity : AlertSeverity
  message : String
deriving Repr, DecidableEq

/-- `AlertNotification` of `alerts.rs`. -/
structure AlertNotification where
  channel : String
  enabled : Bool
deriving Repr, DecidableEq

/-- `AlertConfig` of `alerts.rs`. -/
structure AlertConfig where
  name : String
  enabled : Bool
  thresholds : List AlertThreshold
  notifications : List AlertNotification
deriving Repr, DecidableEq

/-- `AlertConfig::default`: the four built-in rules — scenario duration
above 30 000 ms warns and above 60 000 ms is critical, step duration
above 10 000 ms warns, failure rate above 10 % warns. -/
def AlertConfig.default : AlertConfig :=
  { name := "default"
    enabled := true
    thresholds :=
      [{ name := "slow_scenario", metric := .scenarioDurationMs
         operator := .greaterThan, value := 30000, severity := .warning
         message := "Scenario exceeded \x7b:.1\x7ds duration" },
       { name := "very_slow_scenario", metric := .scenarioDurationMs
         operator := .greaterThan, value := 60000, severity := .critical
         message := "Scenario exceeded \x7b:.1\x7ds duration" },
       { name := "slow_step", metric := .stepDurationMs
         operator := .greaterThan, value := 10000, severity := .warning
         message := "Step exceeded \x7b:.1\x7ds duration" },
       { name := "high_failure_rate", metric := .failureRatePercent
         operator := .greaterThan, value := 10, severity := .warning
         message := "Failure rate exceeded \x7b:.1\x7d%" }]
    notifications := [] }

/-- `PerformanceAlert` of `alerts.rs` (`timestamp` is a wall-clock
string, modelled as `""`). -/
structure PerformanceAlert where
  timestamp : String
  severity : AlertSeverity
  threshold_name : String
  message : String
  metric : String
  value : ℚ
  threshold_value : ℚ
  feature : Option String
  scenario : Option String
  step : Option String
deriving Repr, DecidableEq

/-- `PerformanceMonitor` of `alerts.rs`.  `start_time : Instant` is
replaced by the elapsed wall time `elapsed_ms` the source would read
back from it (an environmental input); durations are kept in
milliseconds; the custom-metric `HashMap` is an association list with
insert-overwrites semantics. -/
structure PerformanceMonitor where
  elapsed_ms : Nat
  scenario_durations : List Nat
  step_durations : List Nat
  step_count : Nat
  scenario_count : Nat
  failed_scenarios : Nat
  skipped_scenarios : Nat
  custom_metrics : List (String × ℚ)
  alerts : List PerformanceAlert
deriving Repr, DecidableEq

/-- `PerformanceMonitor::new`: empty accumulators (`elapsed_ms` starts
at zero at the creation instant). -/
def PerformanceMonitor.new : PerformanceMonitor :=
  { elapsed_ms := 0, scenario_durations := [], step_durations := []
    step_count := 0, scenario_count := 0, failed_scenarios := 0
    skipped_scenarios := 0, custom_metrics := [], alerts := [] }

/-- `PerformanceMonitor::record_scenario`: push the scenario duration,
count a failure or a skip by status, and absorb every step duration. -/
def PerformanceMonitor.record_scenario (m : PerformanceMonitor)
    (scenario : ScenarioResult) : PerformanceMonitor :=
  { m with
    scenario_count := m.scenario_count + 1
    scenario_durations := m.scenario_durations ++ [scenario.duration_ms]
    failed_scenarios :=
      m.failed_scenarios + (if scenario.status = "failed" then 1 else 0)
    skipped_scenarios :=
      m.skipped_scenarios +
        (if scenario.status ≠ "failed" ∧ scenario.status = "skipped" then 1 else 0)
    step_count := m.step_count + scenario.steps.length
    step_durations := m.step_durations ++ scenario.steps.map StepResult.duration_ms }

/-- `PerformanceMonitor::record_step`. -/
def PerformanceMonitor.record_step (m : PerformanceMonitor)
    (step : StepResult) : PerformanceMonitor :=
  { m with
    step_count := m.step_count + 1
    step_durations := m.step_durations ++ [step.duration_ms] }

/-- `PerformanceMonitor::set_metric`: `HashMap::insert`, overwriting an
existing key. -/
def PerformanceMonitor.set_metric (m : PerformanceMonitor) (key : String)
    (value : ℚ) : PerformanceMonitor :=
  { m with
    custom_metrics :=
      if m.custom_metrics.any (fun p => p.1 = key) then
        m.custom_metrics.map (fun p => if p.1 = key then (key, value) else p)
      else m.custom_metrics ++ [(key, value)] }

/-- `PerformanceMonitor::get_metric_value` of `alerts.rs`; means and
the failure-rate percentage are exact rationals (see the header note on
`f64`), and the per-second metrics divide by the elapsed wall time. -/
def PerformanceMonitor.get_metric_value (m : PerformanceMonitor) :
    AlertMetric → ℚ
  | .scenarioDurationMs =>
      if m.scenario_durations.isEmpty then 0
      else (m.scenario_durations.sum : ℚ) / m.scenario_durations.length
  | .stepDurationMs =>
      if m.step_durations.isEmpty then 0
      else (m.step_durations.sum : ℚ) / m.step_durations.length
  | .failureRatePercent =>
      if m.scenario_count = 0 then 0
      else ((m.failed_scenarios : ℚ) / m.scenario_count) * 100
  | .totalDurationMs => (m.elapsed_ms : ℚ)
  | .scenariosPerSecond =>
      if (m.elapsed_ms : ℚ) / 1000 = 0 then 0
      else (m.scenario_count : ℚ) / ((m.elapsed_ms : ℚ) / 1000)
  | .stepsPerSecond =>
      if (m.elapsed_ms : ℚ) / 1000 = 0 then 0
      else (m.step_count : ℚ) / ((m.elapsed_ms : ℚ) / 1000)
  | .memoryUsageMb => 0
  | .custom key =>
      ((m.custom_metrics.find? (fun p => p.1 = key)).map Prod.snd).getD 0

/-- `f64::EPSILON`, the machine epsilon used by the float-equality
operators of `evaluate_threshold`. -/
def f64Epsilon : ℚ := 1 / 2 ^ 52

/-- `PerformanceMonitor::evaluate_threshold`: compare the computed
metric value with the rule value under the rule operator (equality is
epsilon-equality on `f64`). -/
def PerformanceMonitor.evaluate_threshold (m : PerformanceMonitor)
    (threshold : AlertThreshold) : Bool :=
  let value := m.get_metric_value threshold.metric
  match threshold.operator with
  | .greaterThan => value > threshold.value
  | .lessThan => value < threshold.value
  | .equalTo => |value - threshold.value| < f64Epsilon
  | .notEqualTo => |value - threshold.value| ≥ f64Epsilon

/-- `PerformanceMonitor::evaluate_thresholds`: nothing when the config
is disabled; otherwise one alert per satisfied rule, in rule order.
The source also appends the same alerts to the monitor's own history
(`self.alerts`), which no claim observes; the embedding returns the
produced list. -/
def PerformanceMonitor.evaluate_thresholds (m : PerformanceMonitor)
    (config : AlertConfig) : List PerformanceAlert :=
  if !config.enabled then []
  else
    config.thresholds.filterMap (fun threshold =>
      if m.evaluate_threshold threshold then
        some { timestamp := "", severity := threshold.severity
               threshold_name := threshold.name, message := threshold.message
               metric := threshold.metric.debugName
               value := m.get_metric_value threshold.metric
               threshold_value := threshold.value
               feature := none, scenario := none, step := none }
      else none)

/-! ## Step pattern registry (`src/examples/gherkin_runner.rs`)

The registry stores `(Regex, String)` pairs and matching delegates to
the external `regex` crate.  The crate is a third-party collaborator
outside this repository, so regex capture extraction is abstracted as a
pure function `cap : String → String → Option (List (Option String))`
mapping a pattern string and a text to the capture list of the leftmost
match (`None` when the pattern does not match; index 0 is the whole
match, index `i ≥ 1` is group `i`, `none` marking a group that did not
participate).  `Regex::new` and `Regex::captures` are deterministic
pure functions of the pattern string and the text, which is all the
claims about the registry logic need. -/

/-- `StepRegistry`: an ordered list of `(pattern, identifier)` entries;
`register` appends, so list order is registration order. -/
abbrev StepRegistry := List (String × String)

/-- `StepRegistry::register`: append one compiled entry. -/
def StepRegistry.register (reg : StepRegistry) (pattern name : String) :
    StepRegistry :=
  reg ++ [(pattern, name)]

/-- `StepRegistry::match_step`: scan the entries in registration order;
for the first whose pattern captures the text, return its identifier
together with `caps.iter().skip(1).filter_map(|c| c.map(..))` — the
participating capture groups in index order, non-participating groups
dropped. -/
def StepRegistry.match_step (cap : String → String → Option (List (Option String)))
    (reg : StepRegistry) (step_text : String) : Option (String × List String) :=
  match reg with
  | [] => none
  | (pattern, name) :: rest =>
      match cap pattern step_text with
      | some caps => some (name, (caps.drop 1).filterMap id)
      | none => StepRegistry.match_step cap rest step_text

/-! ## Concrete fixtures used by witnesses and counterexamples -/

/-- A step fixture with the given text, status and duration. -/
def mkStep (t st : String) (d : Nat) : StepResult :=
  { text := t, keyword := "Given", status := st, duration_ms := d
    output := none, error := none }

/-- A scenario fixture with the given name, status, duration, steps. -/
def mkScenario (n st : String) (d : Nat) (steps : List StepResult) :
    ScenarioResult :=
  { name := n, status := st, duration_ms := d, steps := steps }

/-- An execution-result fixture around the given scenarios (summary left
at zero, as `ExecutionResult::new` initializes it). -/
def mkResult (scens : List ScenarioResult) : ExecutionResult :=
  { status := "passed", timestamp := "", duration_ms := 0
    feature := { name := "f", file := none, description := none }
    scenarios := scens, summary := ExecutionSummary.new }

/-- An execution-result fixture whose summary is the rollup of its
scenarios through `ExecutionSummary::add_scenario_result`. -/
def mkRolledResult (scens : List ScenarioResult) : ExecutionResult :=
  { status := "passed", timestamp := "", duration_ms := 0
    feature := { name := "f", file := none, description := none }
    scenarios := scens
    summary := scens.foldl ExecutionSummary.add_scenario_result ExecutionSummary.new }

/-- A concrete runner for the batch fixture: fails on the path `"f2"`,
succeeds with an empty passed result elsewhere. -/
def demoRunner (p : String) : Except String ExecutionResult :=
  if p = "f2" then .error "boom" else .ok (mkResult [])

/-- A concrete stand-in for the regex engine on the fixture patterns:
pattern `"x"` matches the text `"hello"` with one capture group
holding `"h"`; every other pattern matches nothing. -/
def demoCap (pattern text : String) : Option (List (Option String)) :=
  if pattern = "x" ∧ text = "hello" then some [some "hello", some "h"]
  else none

/-- A concrete stand-in for the regex engine on an alternation pattern
`(a)|(b)` applied to `"b"`: the whole match is `"b"`, group 1 (the
branch `(a)`) did not participate, group 2 captured `"b"`. -/
def altCap (pattern text : String) : Option (List (Option String)) :=
  if pattern = "(a)|(b)" ∧ text = "b" then some [some "b", none, some "b"]
  else none

/-- The three step/scenario statuses the summary rollup counts; any
other status (such as the initial `"pending"`) falls through the
`match` of `add_scenario_result` and is only counted in the totals. -/
def countedStatuses : List String := ["passed", "failed", "skipped"]

/-! ## Theorems -/

/-- **C10** (confirmed). `ExecutionResult::add_scenario` only appends
the scenario to `scenarios`; `status`, `timestamp`, `duration_ms`,
`feature` and the whole `summary` (all eight counters) are untouched —
the rollup moves only through an explicit
`ExecutionSummary::add_scenario_result` call. -/
theorem C10_add_scenario_frame (r : ExecutionResult) (s : ScenarioResult) :
    (r.add_scenario s).scenarios = r.scenarios ++ [s] ∧
    (r.add_scenario s).status = r.status ∧
    (r.add_scenario s).timestamp = r.timestamp ∧
    (r.add_scenario s).duration_ms = r.duration_ms ∧
    (r.add_scenario s).feature = r.feature ∧
    (r.add_scenario s).summary = r.summary :=
  ⟨rfl, rfl, rfl, rfl, rfl, rfl⟩

/-- **C7** (counterexample). A freshly created scenario has zero steps
and status `"pending"`, yet `update_status` moves it to `"skipped"`:
the all-steps-skipped test is vacuously true on an empty step list, so
a zero-step scenario does leave `pending`. -/
theorem C7_counterexample :
    ((ScenarioResult.new "s").update_status).status = "skipped" ∧
    ((ScenarioResult.new "s").update_status).status ≠ "pending" := by
  constructor <;> decide

/-- **C7** (amended). For every `ScenarioResult` with zero steps,
`update_status` sets the status to `"skipped"` (never leaving it
`"pending"`): the `all`-skipped branch fires vacuously. -/
theorem C7_zero_steps_skipped (s : ScenarioResult) (h : s.steps = []) :
    (s.update_status).status = "skipped" := by
  simp [ScenarioResult.update_status, h]

/-- Witness for `C7_zero_steps_skipped` at `ScenarioResult::new`. -/
theorem C7_zero_steps_skipped_witness :
    (ScenarioResult.new "x").steps = [] ∧
    ((ScenarioResult.new "x").update_status).status = "skipped" :=
  ⟨rfl, C7_zero_steps_skipped (ScenarioResult.new "x") rfl⟩

/-- **C1** (counterexample). Rolling a single freshly created
(`"pending"`, zero-step) scenario into the summary breaks the claimed
identity: `total_scenarios` becomes 1 while the three status counters
stay 0, because `add_scenario_result` counts only
`passed/failed/skipped` statuses. -/
theorem C1_counterexample :
    ((ExecutionSummary.new.add_scenario_result (ScenarioResult.new "s")).total_scenarios = 1) ∧
    ((ExecutionSummary.new.add_scenario_result (ScenarioResult.new "s")).passed_scenarios +
     (ExecutionSummary.new.add_scenario_result (ScenarioResult.new "s")).failed_scenarios +
     (ExecutionSummary.new.add_scenario_result (ScenarioResult.new "s")).skipped_scenarios = 0) ∧
    ¬ ((ExecutionSummary.new.add_scenario_result (ScenarioResult.new "s")).total_scenarios =
       (ExecutionSummary.new.add_scenario_result (ScenarioResult.new "s")).passed_scenarios +
       (ExecutionSummary.new.add_scenario_result (ScenarioResult.new "s")).failed_scenarios +
       (ExecutionSummary.new.add_scenario_result (ScenarioResult.new "s")).skipped_scenarios) := by
  refine ⟨?_, ?_, ?_⟩ <;> decide

/-- One step through the step-counting loop of `add_scenario_result`
preserves the step identity and leaves the scenario counters alone,
provided the step status is one of the three counted ones. -/
theorem addStepCount_preserves (s : ExecutionSummary) (st : StepResult)
    (h : st.status ∈ countedStatuses)
    (hstep : s.total_steps = s.passed_steps + s.failed_steps + s.skipped_steps) :
    (s.addStepCount st).total_steps =
      (s.addStepCount st).passed_steps + (s.addStepCount st).failed_steps +
      (s.addStepCount st).skipped_steps ∧
    (s.addStepCount st).total_scenarios = s.total_scenarios ∧
    (s.addStepCount st).passed_scenarios = s.passed_scenarios ∧
    (s.addStepCount st).failed_scenarios = s.failed_scenarios ∧
    (s.addStepCount st).skipped_scenarios = s.skipped_scenarios := by
  rcases (show st.status = "passed" ∨ st.status = "failed" ∨ st.status = "skipped" by
    simpa [countedStatuses] using h) with h | h | h <;>
    simp [ExecutionSummary.addStepCount, h] <;> omega

/-- Folding the step-counting loop over well-statused steps preserves
the step identity and the scenario counters. -/
theorem foldSteps_preserves (steps : List StepResult) :
    ∀ (s : ExecutionSummary), (∀ st ∈ steps, st.status ∈ countedStatuses) →
    s.total_steps = s.passed_steps + s.failed_steps + s.skipped_steps →
    (steps.foldl ExecutionSummary.addStepCount s).total_steps =
      (steps.foldl ExecutionSummary.addStepCount s).passed_steps +
      (steps.foldl ExecutionSummary.addStepCount s).failed_steps +
      (steps.foldl ExecutionSummary.addStepCount s).skipped_steps ∧
    (steps.foldl ExecutionSummary.addStepCount s).total_scenarios = s.total_scenarios ∧
    (steps.foldl ExecutionSummary.addStepCount s).passed_scenarios = s.passed_scenarios ∧
    (steps.foldl ExecutionSummary.addStepCount s).failed_scenarios = s.failed_scenarios ∧
    (steps.foldl ExecutionSummary.addStepCount s).skipped_scenarios = s.skipped_scenarios := by
  induction steps with
  | nil => intro s _ hstep; exact ⟨hstep, rfl, rfl, rfl, rfl⟩
  | cons st rest ih =>
      intro s hmem hstep
      have hst := addStepCount_preserves s st (hmem st (by simp)) hstep
      have hrest := ih (s.addStepCount st) (fun x hx => hmem x (by simp [hx])) hst.1
      simp only [List.foldl_cons]
      exact ⟨hrest.1, hrest.2.1.trans hst.2.1, hrest.2.2.1.trans hst.2.2.1,
        hrest.2.2.2.1.trans hst.2.2.2.1, hrest.2.2.2.2.trans hst.2.2.2.2⟩

/-- `add_scenario_result` preserves both identities when the scenario
status and every step status are counted ones. -/
theorem add_scenario_result_preserves (s : ExecutionSummary) (sc : ScenarioResult)
    (hsc : sc.status ∈ countedStatuses)
    (hsteps : ∀ st ∈ sc.steps, st.status ∈ countedStatuses)
    (hscen : s.total_scenarios = s.passed_scenarios + s.failed_scenarios + s.skipped_scenarios)
    (hstep : s.total_steps = s.passed_steps + s.failed_steps + s.skipped_steps) :
    (s.add_scenario_result sc).total_scenarios =
      (s.add_scenario_result sc).passed_scenarios +
      (s.add_scenario_result sc).failed_scenarios +
      (s.add_scenario_result sc).skipped_scenarios ∧
    (s.add_scenario_result sc).total_steps =
      (s.add_scenario_result sc).passed_steps +
      (s.add_scenario_result sc).failed_steps +
      (s.add_scenario_result sc).skipped_steps := by
  have key : ∀ s1 : ExecutionSummary,
      s1.total_scenarios = s1.passed_scenarios + s1.failed_scenarios + s1.skipped_scenarios →
      s1.total_steps = s1.passed_steps + s1.failed_steps + s1.skipped_steps →
      (sc.steps.foldl ExecutionSummary.addStepCount s1).total_scenarios =
        (sc.steps.foldl ExecutionSummary.addStepCount s1).passed_scenarios +
        (sc.steps.foldl ExecutionSummary.addStepCount s1).failed_scenarios +
        (sc.steps.foldl ExecutionSummary.addStepCount s1).skipped_scenarios ∧
      (sc.steps.foldl ExecutionSummary.addStepCount s1).total_steps =
        (sc.steps.foldl ExecutionSummary.addStepCount s1).passed_steps +
        (sc.steps.foldl ExecutionSummary.addStepCount s1).failed_steps +
        (sc.steps.foldl ExecutionSummary.addStepCount s1).skipped_steps := by
    intro s1 h1 h2
    have hf := foldSteps_preserves sc.steps s1 hsteps h2
    refine ⟨?_, hf.1⟩
    rw [hf.2.1, hf.2.2.1, hf.2.2.2.1, hf.2.2.2.2]
    exact h1
  rcases (show sc.status = "passed" ∨ sc.status = "failed" ∨ sc.status = "skipped" by
    simpa [countedStatuses] using hsc) with h | h | h <;>
    · unfold ExecutionSummary.add_scenario_result
      simp only [h, reduceIte, String.reduceEq]
      apply key <;> simp <;> omega

/-- **C1** (amended). For every `ExecutionResult` whose summary is the
rollup of its scenarios through `ExecutionSummary::add_scenario_result`
(one call per added scenario, in order), the identities
`total_scenarios = passed + failed + skipped` and
`total_steps = passed + failed + skipped` hold **provided** every
scenario and every step carries one of the statuses
`"passed"`/`"failed"`/`"skipped"`.  Without that proviso the claim is
false (`C1_counterexample`): a `"pending"` scenario or step bumps only
the total. -/
theorem C1_summary_identity (r : ExecutionResult)
    (hsum : r.summary =
      r.scenarios.foldl ExecutionSummary.add_scenario_result ExecutionSummary.new)
    (h : ∀ sc ∈ r.scenarios, sc.status ∈ countedStatuses ∧
      ∀ st ∈ sc.steps, st.status ∈ countedStatuses) :
    r.summary.total_scenarios =
      r.summary.passed_scenarios + r.summary.failed_scenarios +
      r.summary.skipped_scenarios ∧
    r.summary.total_steps =
      r.summary.passed_steps + r.summary.failed_steps + r.summary.skipped_steps := by
  rw [hsum]
  suffices hgen : ∀ (l : List ScenarioResult) (s : ExecutionSummary),
      (∀ sc ∈ l, sc.status ∈ countedStatuses ∧
        ∀ st ∈ sc.steps, st.status ∈ countedStatuses) →
      s.total_scenarios = s.passed_scenarios + s.failed_scenarios + s.skipped_scenarios →
      s.total_steps = s.passed_steps + s.failed_steps + s.skipped_steps →
      (l.foldl ExecutionSummary.add_scenario_result s).total_scenarios =
        (l.foldl ExecutionSummary.add_scenario_result s).passed_scenarios +
        (l.foldl ExecutionSummary.add_scenario_result s).failed_scenarios +
        (l.foldl ExecutionSummary.add_scenario_result s).skipped_scenarios ∧
      (l.foldl ExecutionSummary.add_scenario_result s).total_steps =
        (l.foldl ExecutionSummary.add_scenario_result s).passed_steps +
        (l.foldl ExecutionSummary.add_scenario_result s).failed_steps +
        (l.foldl ExecutionSummary.add_scenario_result s).skipped_steps by
    exact hgen r.scenarios ExecutionSummary.new h rfl rfl
  intro l
  induction l with
  | nil => intro s _ h1 h2; exact ⟨h1, h2⟩
  | cons sc rest ih =>
      intro s hmem h1 h2
      have hsc := hmem sc (by simp)
      have hnext := add_scenario_result_preserves s sc hsc.1 hsc.2 h1 h2
      simp only [List.foldl_cons]
      exact ih (s.add_scenario_result sc) (fun x hx => hmem x (by simp [hx]))
        hnext.1 hnext.2

/-- Witness for `C1_summary_identity` on a one-scenario, one-step
rolled-up result. -/
theorem C1_summary_identity_witness :
    (mkRolledResult [mkScenario "a" "passed" 5 [mkStep "t" "passed" 3]]).summary =
      (mkRolledResult [mkScenario "a" "passed" 5 [mkStep "t" "passed" 3]]).scenarios.foldl
        ExecutionSummary.add_scenario_result ExecutionSummary.new ∧
    (mkRolledResult [mkScenario "a" "passed" 5 [mkStep "t" "passed" 3]]).summary.total_scenarios =
      (mkRolledResult [mkScenario "a" "passed" 5 [mkStep "t" "passed" 3]]).summary.passed_scenarios +
      (mkRolledResult [mkScenario "a" "passed" 5 [mkStep "t" "passed" 3]]).summary.failed_scenarios +
      (mkRolledResult [mkScenario "a" "passed" 5 [mkStep "t" "passed" 3]]).summary.skipped_scenarios ∧
    (mkRolledResult [mkScenario "a" "passed" 5 [mkStep "t" "passed" 3]]).summary.total_steps =
      (mkRolledResult [mkScenario "a" "passed" 5 [mkStep "t" "passed" 3]]).summary.passed_steps +
      (mkRolledResult [mkScenario "a" "passed" 5 [mkStep "t" "passed" 3]]).summary.failed_steps +
      (mkRolledResult [mkScenario "a" "passed" 5 [mkStep "t" "passed" 3]]).summary.skipped_steps := by
  have h := C1_summary_identity
    (mkRolledResult [mkScenario "a" "passed" 5 [mkStep "t" "passed" 3]]) rfl
    (by decide)
  exact ⟨rfl, h.1, h.2⟩

/-- Entries that all fail to capture the text are skipped: matching a
concatenated registry continues past them. -/
theorem matchStep_append_none (cap : String → String → Option (List (Option String)))
    (l1 l2 : StepRegistry) (text : String)
    (h : ∀ p ∈ l1, cap p.1 text = none) :
    StepRegistry.match_step cap (l1 ++ l2) text =
      StepRegistry.match_step cap l2 text := by
  induction l1 with
  | nil => rfl
  | cons p l ih =>
      have hp := h p (by simp)
      simp only [List.cons_append, StepRegistry.match_step, hp]
      exact ih (fun q hq => h q (by simp [hq]))

/-- A successful match always returns the identifier of some registered
entry. -/
theorem matchStep_ident_mem (cap : String → String → Option (List (Option String)))
    (reg : StepRegistry) (text n : String) (ps : List String)
    (h : StepRegistry.match_step cap reg text = some (n, ps)) :
    n ∈ reg.map Prod.snd := by
  induction reg with
  | nil => simp [StepRegistry.match_step] at h
  | cons p rest ih =>
      rw [StepRegistry.match_step] at h
      rcases hc : cap p.1 text with _ | caps
      · rw [hc] at h
        exact List.mem_cons_of_mem _ (ih h)
      · rw [hc] at h
        simp only [Option.some.injEq, Prod.mk.injEq] at h
        simp [← h.1]

/-- If the shared pattern does not capture the text, a registry segment
free of the identifier `B` followed by the `(pat, B)` entry and a tail
free of `B` can never return `B`. -/
theorem matchStep_notB_aux (cap : String → String → Option (List (Option String)))
    (pat B text : String) (post : StepRegistry)
    (hpat : cap pat text = none) (hpost : ∀ p ∈ post, p.2 ≠ B) :
    ∀ (mid : StepRegistry), (∀ p ∈ mid, p.2 ≠ B) → ∀ params,
      StepRegistry.match_step cap (mid ++ (pat, B) :: post) text ≠ some (B, params) := by
  intro mid
  induction mid with
  | nil =>
      intro _ params h
      rw [List.nil_append, StepRegistry.match_step, hpat] at h
      have hmem := matchStep_ident_mem cap post text B params h
      rcases List.mem_map.mp hmem with ⟨p, hp, hpB⟩
      exact hpost p hp hpB
  | cons p rest ih =>
      intro hmid params h
      rw [List.cons_append, StepRegistry.match_step] at h
      rcases hc : cap p.1 text with _ | caps
      · rw [hc] at h
        exact ih (fun q hq => hmid q (by simp [hq])) params h
      · rw [hc] at h
        simp only [Option.some.injEq, Prod.mk.injEq] at h
        exact hmid p (by simp) h.1

/-- **C2** (confirmed). `match_step` scans the registered entries in
registration order and returns the first whose pattern captures the
text.  First part: with every earlier entry failing to capture, the
first `(pat, A)` entry wins and yields `A` with the participating
capture groups.  Second part: when the identical pattern is registered
first under `A` and again later under `B` (and `B` names no other
entry), `match_step` can never return `B` for any text — the later
registration is unreachable. -/
theorem C2_first_match_wins (cap : String → String → Option (List (Option String)))
    (pre mid post : StepRegistry) (pat A B text : String) :
    ((∀ p ∈ pre, cap p.1 text = none) → ∀ caps, cap pat text = some caps →
      StepRegistry.match_step cap (pre ++ (pat, A) :: (mid ++ (pat, B) :: post)) text
        = some (A, (caps.drop 1).filterMap id)) ∧
    (A ≠ B → (∀ p ∈ pre, p.2 ≠ B) → (∀ p ∈ mid, p.2 ≠ B) → (∀ p ∈ post, p.2 ≠ B) →
      ∀ params,
        StepRegistry.match_step cap (pre ++ (pat, A) :: (mid ++ (pat, B) :: post)) text
          ≠ some (B, params)) := by
  constructor
  · intro hpre caps hcaps
    rw [matchStep_append_none cap pre _ text hpre, StepRegistry.match_step, hcaps]
  · intro hAB hpre hmid hpost params
    induction pre with
    | nil =>
        intro h
        rw [List.nil_append, StepRegistry.match_step] at h
        rcases hc : cap pat text with _ | caps
        · rw [hc] at h
          exact matchStep_notB_aux cap pat B text post hc hpost mid hmid params h
        · rw [hc] at h
          simp only [Option.some.injEq, Prod.mk.injEq] at h
          exact hAB h.1
    | cons p rest ih =>
        intro h
        rw [List.cons_append, StepRegistry.match_step] at h
        rcases hc : cap p.1 text with _ | caps
        · rw [hc] at h
          exact ih (fun q hq => hpre q (by simp [hq])) h
        · rw [hc] at h
          simp only [Option.some.injEq, Prod.mk.injEq] at h
          exact hpre p (by simp) h.1

/-- Witness for `C2_first_match_wins`: the concrete registry
`[("q","C"), ("x","A"), ("x","B")]` under the fixture capture function,
matched against `"hello"`, returns `A` with parameter `"h"`. -/
theorem C2_first_match_wins_witness :
    demoCap "q" "hello" = none ∧
    demoCap "x" "hello" = some [some "hello", some "h"] ∧
    StepRegistry.match_step demoCap [("q", "C"), ("x", "A"), ("x", "B")] "hello"
      = some ("A", ["h"]) := by
  refine ⟨by decide, by decide, ?_⟩
  have h := (C2_first_match_wins demoCap [("q", "C")] [] [] "x" "A" "B" "hello").1
    (by intro p hp; simp only [List.mem_singleton] at hp; subst hp; decide)
    [some "hello", some "h"] (by decide)
  simpa using h

/-- The parameters `match_step` extracts are exactly the participating
groups in index order: `filterMap id` on options equals filtering to
the `some`s and extracting, and its length counts the `some`s. -/
theorem filterMapId_participating (l : List (Option String)) :
    l.filterMap id = (l.filter Option.isSome).map (fun o => o.getD "") ∧
    (l.filterMap id).length = l.countP (fun o => o.isSome) := by
  induction l with
  | nil => exact ⟨rfl, rfl⟩
  | cons o rest ih =>
      rcases o with _ | a <;>
        simp [List.filterMap_cons, List.filter_cons, List.countP_cons, ih.1, ih.2,
          List.countP_eq_length_filter]

/-- **C8** (confirmed). When `match_step` succeeds on the leading
entry, the returned parameter list is exactly the capture groups that
participated in the match (`some` entries of `caps` after the whole
match at index 0), in left-to-right order; a non-participating group
(`none`, e.g. an unexercised alternation branch) is omitted outright —
the parameter count equals the count of participating groups, with no
empty placeholder inserted. -/
theorem C8_participating_groups
    (cap : String → String → Option (List (Option String)))
    (pat name : String) (rest : StepRegistry) (text : String)
    (caps : List (Option String)) (h : cap pat text = some caps) :
    StepRegistry.match_step cap ((pat, name) :: rest) text
      = some (name, (caps.drop 1).filterMap id) ∧
    (caps.drop 1).filterMap id
      = ((caps.drop 1).filter Option.isSome).map (fun o => o.getD "") ∧
    ((caps.drop 1).filterMap id).length = (caps.drop 1).countP (fun o => o.isSome) := by
  refine ⟨?_, (filterMapId_participating (caps.drop 1)).1,
    (filterMapId_participating (caps.drop 1)).2⟩
  rw [StepRegistry.match_step, h]

/-- Witness for `C8_participating_groups`: the alternation fixture
`(a)|(b)` matched on `"b"` has groups `[none, some "b"]`; the
parameter list is `["b"]` — group 1 is omitted, not an empty string. -/
theorem C8_participating_groups_witness :
    altCap "(a)|(b)" "b" = some [some "b", none, some "b"] ∧
    StepRegistry.match_step altCap [("(a)|(b)", "choice")] "b"
      = some ("choice", ["b"]) := by
  refine ⟨by decide, ?_⟩
  have h := (C8_participating_groups altCap "(a)|(b)" "choice" [] "b"
    [some "b", none, some "b"] (by decide)).1
  simpa using h

/-- **C6** (confirmed). For a three-path batch whose runner fails on
the middle path and succeeds with `"passed"` results on the other two,
`BatchExecutor::execute` reports `total_features = 3`,
`passed_features = 2`, `failed_features = 1`, exactly one error
carrying the failing path, processes all three paths (the failure does
not abort the batch), and the failed feature contributes zero to every
aggregate scenario count. -/
theorem C6_batch_partial_failure (stem : String → String)
    (runner : String → Except String ExecutionResult) (f1 f2 f3 msg : String)
    (r1 r3 : ExecutionResult)
    (h1 : runner f1 = .ok r1) (h1s : r1.status = "passed")
    (h2 : runner f2 = .error msg)
    (h3 : runner f3 = .ok r3) (h3s : r3.status = "passed") :
    (BatchExecutor.execute stem [f1, f2, f3] runner).total_features = 3 ∧
    (BatchExecutor.execute stem [f1, f2, f3] runner).passed_features = 2 ∧
    (BatchExecutor.execute stem [f1, f2, f3] runner).failed_features = 1 ∧
    (BatchExecutor.execute stem [f1, f2, f3] runner).errors.length = 1 ∧
    (BatchExecutor.execute stem [f1, f2, f3] runner).errors.map BatchError.path = [f2] ∧
    (BatchExecutor.execute stem [f1, f2, f3] runner).results.map FeatureResult.path
      = [f1, f2, f3] ∧
    (BatchExecutor.execute stem [f1, f2, f3] runner).total_scenarios =
      (r1.summary.passed_scenarios + r1.summary.failed_scenarios) +
      (r3.summary.passed_scenarios + r3.summary.failed_scenarios) ∧
    (BatchExecutor.execute stem [f1, f2, f3] runner).passed_scenarios =
      r1.summary.passed_scenarios + r3.summary.passed_scenarios ∧
    (BatchExecutor.execute stem [f1, f2, f3] runner).failed_scenarios =
      r1.summary.failed_scenarios + r3.summary.failed_scenarios := by
  refine ⟨rfl, ?_, ?_, ?_, ?_, ?_, ?_, ?_, ?_⟩ <;>
    simp [BatchExecutor.execute, execute_feature, h1, h2, h3, h1s, h3s,
      List.filter, List.filterMap]

/-- Witness for `C6_batch_partial_failure` on the concrete fixture
runner (fails on `"f2"`, passes elsewhere). -/
theorem C6_batch_partial_failure_witness :
    demoRunner "f1" = .ok (mkResult []) ∧ (mkResult []).status = "passed" ∧
    demoRunner "f2" = .error "boom" ∧
    demoRunner "f3" = .ok (mkResult []) ∧
    (BatchExecutor.execute id ["f1", "f2", "f3"] demoRunner).total_features = 3 ∧
    (BatchExecutor.execute id ["f1", "f2", "f3"] demoRunner).passed_features = 2 ∧
    (BatchExecutor.execute id ["f1", "f2", "f3"] demoRunner).failed_features = 1 ∧
    (BatchExecutor.execute id ["f1", "f2", "f3"] demoRunner).errors.map BatchError.path
      = ["f2"] := by
  have h := C6_batch_partial_failure id demoRunner "f1" "f2" "f3" "boom"
    (mkResult []) (mkResult []) rfl rfl rfl rfl rfl
  exact ⟨rfl, rfl, rfl, rfl, h.1, h.2.1, h.2.2.1, h.2.2.2.2.1⟩

/-- **C9** (confirmed). A monitor that has recorded exactly one
scenario of duration 45 000 ms with no steps, evaluated against the
default ruleset, produces exactly one `slow_scenario` alert, that alert
has severity `warning`, and no alert of severity `critical` is produced
(45 000 < 60 000); and for every monitor, a disabled config produces no
alerts at all. -/
theorem C9_threshold_crossing (s : ScenarioResult)
    (hd : s.duration_ms = 45000) (hs : s.steps = []) :
    ((PerformanceMonitor.new.record_scenario s).evaluate_thresholds
        AlertConfig.default).countP
      (fun a => decide (a.threshold_name = "slow_scenario" ∧
        a.severity = AlertSeverity.warning)) = 1 ∧
    (∀ a ∈ (PerformanceMonitor.new.record_scenario s).evaluate_thresholds
        AlertConfig.default, a.severity ≠ AlertSeverity.critical) ∧
    (∀ (m : PerformanceMonitor) (config : AlertConfig), config.enabled = false →
      m.evaluate_thresholds config = []) := by
  refine ⟨?_, ?_, ?_⟩
  · by_cases hf : s.status = "failed" <;>
      simp [PerformanceMonitor.evaluate_thresholds, PerformanceMonitor.evaluate_threshold,
        PerformanceMonitor.record_scenario, PerformanceMonitor.new,
        PerformanceMonitor.get_metric_value, AlertConfig.default, hd, hs, hf,
        List.filterMap, List.countP, List.countP.go]
  · by_cases hf : s.status = "failed" <;>
      (simp [PerformanceMonitor.evaluate_thresholds, PerformanceMonitor.evaluate_threshold,
        PerformanceMonitor.record_scenario, PerformanceMonitor.new,
        PerformanceMonitor.get_metric_value, AlertConfig.default, hd, hs, hf,
        List.filterMap]
       try norm_num
       try decide)
  · intro m config hdis
    simp [PerformanceMonitor.evaluate_thresholds, hdis]

/-- Witness for `C9_threshold_crossing` at a concrete passed scenario
of 45 000 ms with no steps. -/
theorem C9_threshold_crossing_witness :
    (mkScenario "slow" "passed" 45000 []).duration_ms = 45000 ∧
    (mkScenario "slow" "passed" 45000 []).steps = [] ∧
    ((PerformanceMonitor.new.record_scenario
        (mkScenario "slow" "passed" 45000 [])).evaluate_thresholds
        AlertConfig.default).countP
      (fun a => decide (a.threshold_name = "slow_scenario" ∧
        a.severity = AlertSeverity.warning)) = 1 ∧
    PerformanceMonitor.new.evaluate_thresholds
      { AlertConfig.default with enabled := false } = [] := by
  have h := C9_threshold_crossing (mkScenario "slow" "passed" 45000 []) rfl rfl
  exact ⟨rfl, rfl, h.1, h.2.2 PerformanceMonitor.new
    { AlertConfig.default with enabled := false } rfl⟩

/-- **C3** (confirmed). The overall status of `compare_results` obeys
the regression-first precedence: `"regression"` whenever at least one
regression item exists (however many improvements exist),
`"improvement"` only when there are no regressions and at least one
improvement, and `"unchanged"` otherwise. -/
theorem C3_regression_precedence (baseline current : ExecutionResult) :
    ((compare_results baseline current).regressions ≠ [] →
      (compare_results baseline current).status = "regression") ∧
    ((compare_results baseline current).regressions = [] →
      (compare_results baseline current).improvements ≠ [] →
      (compare_results baseline current).status = "improvement") ∧
    ((compare_results baseline current).regressions = [] →
      (compare_results baseline current).improvements = [] →
      (compare_results baseline current).status = "unchanged") := by
  refine ⟨fun h => ?_, fun h1 h2 => ?_, fun h1 h2 => ?_⟩ <;>
    simp only [compare_results] at * <;> simp_all

/-- Witness for `C3_regression_precedence`: a pair with one duration
regression (scenario `a`, +100 %) and one improvement (scenario `b`,
−50 %) is reported as `"regression"`. -/
theorem C3_regression_precedence_witness :
    (compare_results
      (mkResult [mkScenario "a" "passed" 100 [], mkScenario "b" "passed" 100 []])
      (mkResult [mkScenario "a" "passed" 200 [], mkScenario "b" "passed" 50 []])).regressions
        ≠ [] ∧
    (compare_results
      (mkResult [mkScenario "a" "passed" 100 [], mkScenario "b" "passed" 100 []])
      (mkResult [mkScenario "a" "passed" 200 [], mkScenario "b" "passed" 50 []])).improvements
        ≠ [] ∧
    (compare_results
      (mkResult [mkScenario "a" "passed" 100 [], mkScenario "b" "passed" 100 []])
      (mkResult [mkScenario "a" "passed" 200 [], mkScenario "b" "passed" 50 []])).status
        = "regression" := by
  have h1 : (compare_results
      (mkResult [mkScenario "a" "passed" 100 [], mkScenario "b" "passed" 100 []])
      (mkResult [mkScenario "a" "passed" 200 [], mkScenario "b" "passed" 50 []])).regressions
        ≠ [] := by
    simp [compare_results, scenarioRegressions, stepRegressions, scenarioNames, scenarioLookup,
      scenarioPairRegressions, stepTexts, stepTimes, allSteps, stepRegressionsFor,
      mkResult, mkScenario, cpGtBound, cpAbsGtBound, meanMs]
    norm_num
  have h2 : (compare_results
      (mkResult [mkScenario "a" "passed" 100 [], mkScenario "b" "passed" 100 []])
      (mkResult [mkScenario "a" "passed" 200 [], mkScenario "b" "passed" 50 []])).improvements
        ≠ [] := by
    simp [compare_results, scenarioImprovements, stepImprovements, scenarioNames, scenarioLookup,
      scenarioPairImprovements, stepTexts, stepTimes, allSteps, stepImprovementsFor,
      mkResult, mkScenario, cpGtBound, cpAbsGtBound, meanMs]
  exact ⟨h1, h2, (C3_regression_precedence
    (mkResult [mkScenario "a" "passed" 100 [], mkScenario "b" "passed" 100 []])
    (mkResult [mkScenario "a" "passed" 200 [], mkScenario "b" "passed" 50 []])).1 h1⟩

/-- For a matched pair with equal statuses whose current duration is
exactly `K%` of baseline (`K > 100`), the scenario-level regression
extraction yields exactly the duration item dictated by the thresholds:
present iff the increase `K − 100` exceeds 10, with severity `high`
iff it exceeds 50 and `medium` otherwise. -/
theorem scenarioPairRegressions_of_pct (n : String) (bs cs : ScenarioResult)
    (K : Nat) (hstat : bs.status = cs.status) (hb : 0 < bs.duration_ms)
    (hK : 100 * cs.duration_ms = K * bs.duration_ms) (hKgt : 100 < K) :
    scenarioPairRegressions n bs cs =
      (if ((K : ℚ) - 100) > 10 then
        [{ description := "Scenario " ++ n ++ " duration regressed"
           severity := if ((K : ℚ) - 100) > 50 then "high" else "medium"
           scenario_name := some n, step_text := none
           impact_value := (cs.duration_ms : ℚ) - bs.duration_ms
           impact_unit := "ms" }]
      else []) := by
  have hnc : ¬ (bs.status = "passed" ∧ cs.status = "failed") := by
    rintro ⟨hp, hf⟩
    rw [hstat, hf] at hp
    exact absurd hp (by decide)
  have hcb : bs.duration_ms < cs.duration_ms := by
    have h1 : 101 * bs.duration_ms ≤ K * bs.duration_ms :=
      Nat.mul_le_mul_right _ hKgt
    omega
  have hlt : ¬ (cs.duration_ms < bs.duration_ms) := by omega
  have hbQ : (bs.duration_ms : ℚ) ≠ 0 := Nat.cast_ne_zero.mpr hb.ne'
  have hq : (100 : ℚ) * cs.duration_ms = K * bs.duration_ms := by
    exact_mod_cast hK
  have hpct : ((cs.duration_ms : ℚ) - bs.duration_ms) / bs.duration_ms * 100
      = (K : ℚ) - 100 := by
    field_simp
    linarith [hq]
  simp [scenarioPairRegressions, hnc, hlt, hcb, hpct, hb.ne']

/-- For single-scenario results sharing one name and carrying no steps,
the regression list of `compare_results` is exactly the pair
extraction for that scenario (no step-level items can arise). -/
theorem compare_results_single_regressions (n st1 st2 : String) (b c : Nat) :
    (compare_results (mkResult [mkScenario n st1 b []])
        (mkResult [mkScenario n st2 c []])).regressions
      = scenarioPairRegressions n (mkScenario n st1 b []) (mkScenario n st2 c []) := by
  simp [compare_results, scenarioRegressions, stepRegressions, scenarioNames,
    scenarioLookup, stepTexts, stepTimes, allSteps, stepRegressionsFor,
    mkResult, mkScenario]

/-- **C4** (confirmed). For a scenario matched by name with equal
statuses: a duration increase of exactly 51 % yields one regression
item of severity `"high"`, exactly 11 % yields severity `"medium"`,
and exactly 5 % yields no regression item at all — both at the level of
the per-pair extraction and end-to-end through `compare_results` on
single-scenario results. -/
theorem C4_duration_severity_boundaries (n st : String) (b c51 c11 c5 : Nat)
    (hb : 0 < b) (h51 : 100 * c51 = 151 * b) (h11 : 100 * c11 = 111 * b)
    (h5 : 100 * c5 = 105 * b) :
    (∀ bs cs : ScenarioResult, bs.status = cs.status →
      bs.duration_ms = b → cs.duration_ms = c51 →
      (scenarioPairRegressions n bs cs).map RegressionItem.severity = ["high"]) ∧
    (∀ bs cs : ScenarioResult, bs.status = cs.status →
      bs.duration_ms = b → cs.duration_ms = c11 →
      (scenarioPairRegressions n bs cs).map RegressionItem.severity = ["medium"]) ∧
    (∀ bs cs : ScenarioResult, bs.status = cs.status →
      bs.duration_ms = b → cs.duration_ms = c5 →
      scenarioPairRegressions n bs cs = []) ∧
    (compare_results (mkResult [mkScenario n st b []])
        (mkResult [mkScenario n st c51 []])).regressions.map RegressionItem.severity
      = ["high"] ∧
    (compare_results (mkResult [mkScenario n st b []])
        (mkResult [mkScenario n st c11 []])).regressions.map RegressionItem.severity
      = ["medium"] ∧
    (compare_results (mkResult [mkScenario n st b []])
        (mkResult [mkScenario n st c5 []])).regressions = [] := by
  have case51 : ∀ bs cs : ScenarioResult, bs.status = cs.status →
      bs.duration_ms = b → cs.duration_ms = c51 →
      (scenarioPairRegressions n bs cs).map RegressionItem.severity = ["high"] := by
    intro bs cs hstat hbs hcs
    rw [scenarioPairRegressions_of_pct n bs cs 151 hstat (by omega)
      (by rw [hbs, hcs]; exact h51) (by norm_num)]
    norm_num
  have case11 : ∀ bs cs : ScenarioResult, bs.status = cs.status →
      bs.duration_ms = b → cs.duration_ms = c11 →
      (scenarioPairRegressions n bs cs).map RegressionItem.severity = ["medium"] := by
    intro bs cs hstat hbs hcs
    rw [scenarioPairRegressions_of_pct n bs cs 111 hstat (by omega)
      (by rw [hbs, hcs]; exact h11) (by norm_num)]
    norm_num
  have case5 : ∀ bs cs : ScenarioResult, bs.status = cs.status →
      bs.duration_ms = b → cs.duration_ms = c5 →
      scenarioPairRegressions n bs cs = [] := by
    intro bs cs hstat hbs hcs
    rw [scenarioPairRegressions_of_pct n bs cs 105 hstat (by omega)
      (by rw [hbs, hcs]; exact h5) (by norm_num)]
    norm_num
  refine ⟨case51, case11, case5, ?_, ?_, ?_⟩
  · rw [compare_results_single_regressions]
    exact case51 _ _ rfl rfl rfl
  · rw [compare_results_single_regressions]
    exact case11 _ _ rfl rfl rfl
  · rw [compare_results_single_regressions]
    exact case5 _ _ rfl rfl rfl

/-- Witness for `C4_duration_severity_boundaries` at baseline 100 ms
with currents 151 ms, 111 ms and 105 ms. -/
theorem C4_duration_severity_boundaries_witness :
    0 < 100 ∧ 100 * 151 = 151 * 100 ∧ 100 * 111 = 111 * 100 ∧
    100 * 105 = 105 * 100 ∧
    (compare_results (mkResult [mkScenario "s" "passed" 100 []])
        (mkResult [mkScenario "s" "passed" 151 []])).regressions.map
        RegressionItem.severity = ["high"] ∧
    (compare_results (mkResult [mkScenario "s" "passed" 100 []])
        (mkResult [mkScenario "s" "passed" 111 []])).regressions.map
        RegressionItem.severity = ["medium"] ∧
    (compare_results (mkResult [mkScenario "s" "passed" 100 []])
        (mkResult [mkScenario "s" "passed" 105 []])).regressions = [] := by
  have h := C4_duration_severity_boundaries "s" "passed" 100 151 111 105
    (by decide) (by decide) (by decide) (by decide)
  exact ⟨by decide, by decide, by decide, by decide,
    h.2.2.2.1, h.2.2.2.2.1, h.2.2.2.2.2⟩

/-- No regression item arises from comparing a scenario with itself. -/
theorem scenarioPairRegressions_self (n : String) (s : ScenarioResult) :
    scenarioPairRegressions n s s = [] := by
  have hnc : ¬ (s.status = "passed" ∧ s.status = "failed") := by
    rintro ⟨hp, hf⟩
    rw [hp] at hf
    exact absurd hf (by decide)
  simp [scenarioPairRegressions, hnc]

/-- No improvement item arises from comparing a scenario with itself. -/
theorem scenarioPairImprovements_self (n : String) (s : ScenarioResult) :
    scenarioPairImprovements n s s = [] := by
  simp [scenarioPairImprovements]

/-- A zero change never exceeds a positive bound, in the `f64`
semantics of `cpAbsGtBound` (the `NaN` branch included). -/
theorem cpAbsGtBound_self_false (a bound : ℚ) (hbound : 0 < bound) :
    cpAbsGtBound a a bound = false := by
  by_cases h : a = 0 <;> simp [cpAbsGtBound, h]
  linarith

/-- No step-level regression item arises from comparing a result with
itself. -/
theorem stepRegressionsFor_self (x : ExecutionResult) (t : String) :
    stepRegressionsFor x x t = [] := by
  unfold stepRegressionsFor
  by_cases h : (stepTimes x t).isEmpty <;> simp [h]

/-- No step-level improvement item arises from comparing a result with
itself. -/
theorem stepImprovementsFor_self (x : ExecutionResult) (t : String) :
    stepImprovementsFor x x t = [] := by
  unfold stepImprovementsFor
  by_cases h : (stepTimes x t).isEmpty <;>
    simp [h, cpAbsGtBound_self_false _ 5 (by norm_num)]

/-- **C5** (confirmed). For every `ExecutionResult` `x`,
`compare_results x x` reports status `"unchanged"` with empty
regression and improvement lists and both counts zero. -/
theorem C5_compare_self_unchanged (x : ExecutionResult) :
    (compare_results x x).status = "unchanged" ∧
    (compare_results x x).regressions = [] ∧
    (compare_results x x).improvements = [] ∧
    (compare_results x x).summary.regression_count = 0 ∧
    (compare_results x x).summary.improvement_count = 0 := by
  have hsr : scenarioRegressions x x = [] := by
    rw [scenarioRegressions, List.flatMap_eq_nil_iff]
    intro n _
    cases h : scenarioLookup x.scenarios n <;>
      simp [h, scenarioPairRegressions_self]
  have hsi : scenarioImprovements x x = [] := by
    rw [scenarioImprovements, List.flatMap_eq_nil_iff]
    intro n _
    cases h : scenarioLookup x.scenarios n <;>
      simp [h, scenarioPairImprovements_self]
  have htr : stepRegressions x x = [] := by
    rw [stepRegressions, List.flatMap_eq_nil_iff]
    intro t _
    exact stepRegressionsFor_self x t
  have hti : stepImprovements x x = [] := by
    rw [stepImprovements, List.flatMap_eq_nil_iff]
    intro t _
    exact stepImprovementsFor_self x t
  refine ⟨?_, ?_, ?_, ?_, ?_⟩ <;> simp [compare_results, hsr, hsi, htr, hti]
